import Mathlib

/-!
Verification of the client-side request/export workflow of the
websitetotext client (src/client/src/App.vue and the bootstrap module).

The embedding models JavaScript values as an inductive type `JVal`,
JavaScript member access (which throws a TypeError on a `null` or
`undefined` base) as an `Except` computation, and the `crawlWebsite`
handler as a step function on the reactive state of the component.
-/

/-- JavaScript values, as they can appear in a decoded JSON response or in
the component state. Numbers are modelled as integers (no numeric string
content is exercised by the export path). -/
inductive JVal where
  | null
  | undefined
  | bool (b : Bool)
  | num (n : Int)
  | str (s : String)
  | arr (elems : List JVal)
  | obj (fields : List (String × JVal))

/-- The JavaScript `typeof` operator. Note the JavaScript quirk that
`typeof null` is the string "object", which is load-bearing in
`convertToTxt`'s guard. -/
def jsTypeof : JVal → String
  | JVal.null => "object"
  | JVal.undefined => "undefined"
  | JVal.bool _ => "boolean"
  | JVal.num _ => "number"
  | JVal.str _ => "string"
  | JVal.arr _ => "object"
  | JVal.obj _ => "object"

/-- JavaScript truthiness of a value (as tested by `!v` in the source). -/
def truthy : JVal → Bool
  | JVal.null => false
  | JVal.undefined => false
  | JVal.bool b => b
  | JVal.num n => n != 0
  | JVal.str s => !(s.isEmpty)
  | JVal.arr _ => true
  | JVal.obj _ => true

/-- Look a key up in an object's field list; a missing key reads as
`undefined`, as in JavaScript. -/
def lookupField (fields : List (String × JVal)) (k : String) : JVal :=
  match fields.find? (fun p => p.1 == k) with
  | some p => p.2
  | none => JVal.undefined

/-- JavaScript member access `base[k]`. Accessing a property of `null` or
`undefined` throws a TypeError (modelled as `Except.error`); any other
non-object base yields `undefined` for the keys used by this program. -/
def getMember : JVal → String → Except Unit JVal
  | JVal.null, _ => Except.error ()
  | JVal.undefined, _ => Except.error ()
  | JVal.obj fs, k => Except.ok (lookupField fs k)
  | _, _ => Except.ok JVal.undefined

/-- The JavaScript `Array.isArray` test. -/
def isArray : JVal → Bool
  | JVal.arr _ => true
  | _ => false

/-- The element list of an array value, `[]` otherwise. -/
def asArr : JVal → List JVal
  | JVal.arr xs => xs
  | _ => []

/-- The pattern `Array.isArray(v) ? v : []` from `convertToTxt`. -/
def arrOrEmpty (v : JVal) : List JVal :=
  if isArray v then asArr v else []

mutual

/-- Conversion applied by `Array.prototype.join` to each element:
`null` and `undefined` become the empty string, every other value is
converted with the JavaScript `String` function. -/
def jsElemStr : JVal → String
  | JVal.null => ""
  | JVal.undefined => ""
  | JVal.bool true => "true"
  | JVal.bool false => "false"
  | JVal.num n => toString n
  | JVal.str s => s
  | JVal.arr xs => jsJoin xs ","
  | JVal.obj _ => "[object Object]"

/-- The JavaScript `Array.prototype.join` method. -/
def jsJoin : List JVal → String → String
  | [], _ => ""
  | x :: rest, sep => jsElemStr x ++ jsJoinRest rest sep

/-- Tail of a `join`: each further element is preceded by the separator. -/
def jsJoinRest : List JVal → String → String
  | [], _ => ""
  | x :: rest, sep => sep ++ jsElemStr x ++ jsJoinRest rest sep

end

/-- Outcome of running `convertToTxt` (App.vue lines 185-224):
either the structure check fails (a blocking alert, no blob, no
download), or an exception escapes (no alert, no blob, no download), or
a text blob with the given content is downloaded. -/
inductive TxtOutcome where
  | invalidStructure
  | thrown
  | download (text : String)

/-- True exactly when the outcome produced a blob and triggered the
`crawl_result.txt` download. -/
def downloadsFile : TxtOutcome → Bool
  | TxtOutcome.download _ => true
  | _ => false

/-- True exactly when the outcome raised the user-visible structure
alert. -/
def alertsUser : TxtOutcome → Bool
  | TxtOutcome.invalidStructure => true
  | _ => false

/-- The fixed key order of the header collection in `convertToTxt`. -/
def headerKeys : List String :=
  [("h1"), ("h2"), ("h3"), ("h4")]

/-- The `["h1","h2","h3","h4"].flatMap(h => Array.isArray(page.content[h])
? page.content[h] : [])` expression: accesses happen left to right and a
throwing access aborts the whole export. -/
def getHeaderVals (content : JVal) : List String → Except Unit (List JVal)
  | [] => Except.ok []
  | k :: ks =>
    match getMember content k with
    | Except.error e => Except.error e
    | Except.ok v =>
      match getHeaderVals content ks with
      | Except.error e => Except.error e
      | Except.ok rest => Except.ok (arrOrEmpty v ++ rest)

/-- The per-page callback of `result.value.pages.flatMap` in
`convertToTxt`: a falsy page or a page whose `content` does not have
`typeof` "object" contributes nothing; otherwise the `h1`..`h4` arrays are
collected in that order, followed by the `text` array. -/
def pageContribution (page : JVal) : Except Unit (List JVal) :=
  if truthy page = false then Except.ok []
  else
    match getMember page ("content") with
    | Except.error e => Except.error e
    | Except.ok content =>
      if jsTypeof content != ("object") then Except.ok []
      else
        match getHeaderVals content headerKeys with
        | Except.error e => Except.error e
        | Except.ok hs =>
          match getMember content ("text") with
          | Except.error e => Except.error e
          | Except.ok t => Except.ok (hs ++ arrOrEmpty t)

/-- `pages.flatMap(page => ...)`: page contributions concatenated in page
order, aborting at the first thrown access. -/
def pagesContributions : List JVal → Except Unit (List JVal)
  | [] => Except.ok []
  | p :: rest =>
    match pageContribution p with
    | Except.error e => Except.error e
    | Except.ok c =>
      match pagesContributions rest with
      | Except.error e => Except.error e
      | Except.ok cs => Except.ok (c ++ cs)

/-- The `convertToTxt` handler (App.vue lines 185-224). The stored result
is checked (`!result.value || !Array.isArray(result.value.pages)`); on
failure a user-visible alert is raised and nothing is downloaded.
Otherwise page contributions are flattened, joined with "\n\n" and
downloaded as a text blob. -/
def convertToTxt (result : JVal) : TxtOutcome :=
  if truthy result = false then TxtOutcome.invalidStructure
  else
    match getMember result ("pages") with
    | Except.error _ => TxtOutcome.thrown
    | Except.ok pages =>
      if isArray pages = false then TxtOutcome.invalidStructure
      else
        match pagesContributions (asArr pages) with
        | Except.error _ => TxtOutcome.thrown
        | Except.ok contribs => TxtOutcome.download (jsJoin contribs ("\n\n"))

/-- Specification-side description of one page's contribution: the values
of keys h1, h2, h3, h4 in that fixed order (a missing or non-array value
is empty), followed by the text array. -/
def flattenContent (c : List (String × JVal)) : List JVal :=
  arrOrEmpty (lookupField c ("h1")) ++ arrOrEmpty (lookupField c ("h2")) ++
    arrOrEmpty (lookupField c ("h3")) ++ arrOrEmpty (lookupField c ("h4")) ++
    arrOrEmpty (lookupField c ("text"))

/-- Specification-side description of the whole flattening, in page
order. -/
def flattenPages : List (List (String × JVal)) → List JVal
  | [] => []
  | c :: rest => flattenContent c ++ flattenPages rest

/-- Specification-side join of a sequence of strings with a separator. -/
def joinSep (sep : String) : List String → String
  | [] => ""
  | [s] => s
  | s :: s2 :: rest => s ++ sep ++ joinSep sep (s2 :: rest)

/-- The example result from the specification:
`{pages: [{content: {h1:["A"], text:["b","c"]}}, {content: {}}]}`. -/
def exampleResult : JVal :=
  JVal.obj [(("pages"),
    JVal.arr
      [JVal.obj [(("content"),
          JVal.obj [(("h1"), JVal.arr [JVal.str ("A")]),
                    (("text"), JVal.arr [JVal.str ("b"), JVal.str ("c")])])],
       JVal.obj [(("content"), JVal.obj [])]])]

/-- A stored result holding one page whose `content` field is `null`. -/
def nullContentResult : JVal :=
  JVal.obj [(("pages"), JVal.arr [JVal.obj [(("content"), JVal.null)]])]

/-- The reactive component state touched by `crawlWebsite`:
`lastCrawlTime` (milliseconds), the `loading` flag and the stored
`result` (`null` is `none`). -/
structure AppState where
  lastCrawlTime : Int
  loading : Bool
  result : Option JVal

/-- Observable effect of one `crawlWebsite` invocation: a cooldown alert
reporting the remaining wait in seconds (no request sent), a validation
alert (no request sent), or a network request that succeeded or failed. -/
inductive CrawlEffect where
  | cooldownAlert (waitSeconds : Int)
  | validationAlert
  | requestSent (succeeded : Bool)
deriving DecidableEq

/-- True exactly for the cooldown-rejection effect. -/
def isCooldownAlert : CrawlEffect → Bool
  | CrawlEffect.cooldownAlert _ => true
  | _ => false

/-- One run of `crawlWebsite`: the state while the request is in flight
(right after `loading.value = true`; equal to the pre-request state on the
early-return paths), the state after the handler finished, and the
effect. -/
structure CrawlRun where
  inflight : AppState
  final : AppState
  effect : CrawlEffect

/-- The crawl cooldown in milliseconds (`CRAWL_COOLDOWN` in App.vue). -/
def CRAWL_COOLDOWN : Int := 5000

/-- The `crawlWebsite` handler (App.vue lines 116-169) as a step function.
Inputs: the current clock (`Date.now()`), the value of the `canCrawl`
computed gate, the network outcome (`some data` for a 2xx response body,
`none` for any transport or response error), and the current state.
The code first checks the cooldown (alerting with
`Math.ceil((CRAWL_COOLDOWN - (now - lastCrawlTime)) / 1000)` seconds and
returning), then records `lastCrawlTime = now`, then checks `canCrawl`
(alerting and returning), and only then sets `loading`, performs the
request, stores the result on success, and clears `loading` in a
`finally` block. The editor-widget update on success is an external
component and is not part of this state. -/
def crawlWebsiteRun (now : Int) (canCrawlNow : Bool) (net : Option JVal)
    (s : AppState) : CrawlRun :=
  if now - s.lastCrawlTime < CRAWL_COOLDOWN then
    CrawlRun.mk s s
      (CrawlEffect.cooldownAlert
        (Int.ceil (((CRAWL_COOLDOWN - (now - s.lastCrawlTime) : Int) : ℚ) / 1000)))
  else
    if canCrawlNow = false then
      CrawlRun.mk (AppState.mk now s.loading s.result)
        (AppState.mk now s.loading s.result) CrawlEffect.validationAlert
    else
      match net with
      | some data =>
        CrawlRun.mk (AppState.mk now true s.result)
          (AppState.mk now false (some data)) (CrawlEffect.requestSent true)
      | none =>
        CrawlRun.mk (AppState.mk now true s.result)
          (AppState.mk now false s.result) (CrawlEffect.requestSent false)

/-- The `handleKeyPress` handler (App.vue lines 56-60): returns whether
the key event invokes `crawlWebsite`. It consults neither `loading` nor
`canCrawl`. -/
def handleKeyPress (key : String) : Bool :=
  key == ("Enter")

/-- Enabled state of the crawl button, whose template attribute is
`:disabled="loading || !canCrawl"` (App.vue line 242). -/
def crawlButtonEnabled (loading canCrawlNow : Bool) : Bool :=
  !loading && canCrawlNow

/-- The page-count ceiling `MAX_CRAWL_PAGES` (App.vue line 25). -/
def MAX_CRAWL_PAGES : ℚ := 100

/-- The `isValidMaxPages` computed value (App.vue lines 50-52):
`Number.isInteger(maxPages.value) && maxPages.value > 0`. JavaScript
numbers are modelled as rationals; `Number.isInteger` is a denominator
check. Note the source places no upper bound here. -/
def isValidMaxPages (m : ℚ) : Bool :=
  (m.den == 1) && decide (0 < m)

/-- The `canCrawl` computed gate (App.vue line 54): the URL validity
check (`new URL(...)` succeeding on the normalized string, a platform
parser taken as an abstract boolean here) conjoined with
`isValidMaxPages`. -/
def canCrawl (urlValid : Bool) (m : ℚ) : Bool :=
  urlValid && isValidMaxPages m

/-- The `updateMaxPages` handler (App.vue lines 69-75) restricted to the
`maxPages` field: `parsed` is the result of
`parseInt(displayMaxPages.value, 10)` (`none` for NaN); a parsed value is
clamped with `Math.min(parsed, MAX_CRAWL_PAGES)`. The handler then writes
the decimal rendering of the new value back into the display field. -/
def updateMaxPages (parsed : Option Int) (m : ℚ) : ℚ :=
  match parsed with
  | none => m
  | some p => min ((p : ℚ)) MAX_CRAWL_PAGES

/-- The values the `maxPages` ref can hold at runtime: it is initialised
to 10 (App.vue line 24) and only ever written by `updateMaxPages`. -/
inductive ReachableMaxPages : ℚ → Prop where
  | init : ReachableMaxPages 10
  | step (m : ℚ) (parsed : Option Int) (h : ReachableMaxPages m) :
      ReachableMaxPages (updateMaxPages parsed m)

/-- Character class trimmed by `String.prototype.trim` (whitespace and
line terminators). -/
def jsWhitespace (c : Char) : Bool := c.isWhitespace

/-- Remove trailing characters satisfying a test. -/
def rtrimWhile (p : Char → Bool) (l : List Char) : List Char :=
  (List.dropWhile p l.reverse).reverse

/-- `String.prototype.trim`, over the character sequence of a JavaScript
string. -/
def jsTrim (s : List Char) : List Char :=
  rtrimWhile jsWhitespace (List.dropWhile jsWhitespace s)

/-- `String.prototype.toLowerCase` (character-wise lowering). -/
def jsLower (s : List Char) : List Char :=
  s.map Char.toLower

/-- `String.prototype.startsWith`. -/
def startsWithL (s pre : List Char) : Bool :=
  pre.isPrefixOf s

/-- The character sequence of the literal "http://". -/
def httpChars : List Char := ("http://").toList

/-- The character sequence of the literal "https://". -/
def httpsChars : List Char := ("https://").toList

/-- The `normalizedUrl` computed value (App.vue lines 33-39): trim,
lowercase, and prepend "https://" when the result starts with neither
"http://" nor "https://". -/
def normalizedUrl (url : List Char) : List Char :=
  if !(startsWithL (jsLower (jsTrim url)) httpChars) &&
      !(startsWithL (jsLower (jsTrim url)) httpsChars) then
    httpsChars ++ jsLower (jsTrim url)
  else jsLower (jsTrim url)

/-- The axios absolute-URL test (regular expression
caret, optional scheme group of a letter followed by letters, digits,
plus, minus or dot, then a colon, then two slashes). -/
def isAbsoluteURL (s : String) : Bool :=
  ((("//").toList).isPrefixOf s.toList) ||
    (match s.toList.takeWhile (fun c => c != ':'),
           s.toList.drop ((s.toList.takeWhile (fun c => c != ':')).length) with
     | c :: cs, _ :: r =>
       c.isAlpha &&
         cs.all (fun d => d.isAlpha || d.isDigit || d == '+' || d == '-' || d == '.') &&
         (("//").toList).isPrefixOf r
     | _, _ => false)

/-- The axios `combineURLs` helper: strip trailing slashes from the base,
leading slashes from the relative part, and join with one slash; an empty
relative part returns the base unchanged. -/
def combineURLs (base rel : String) : String :=
  if rel = ("") then base
  else
    String.mk (rtrimWhile (fun c => c == '/') base.toList) ++ ("/") ++
      String.mk (List.dropWhile (fun c => c == '/') rel.toList)

/-- The axios `buildFullPath` helper: a requested URL that is not
absolute is resolved against the configured base URL. -/
def buildFullPath (base : Option String) (requested : String) : String :=
  match base with
  | some b => if b ≠ ("") ∧ isAbsoluteURL requested = false
              then combineURLs b requested else requested
  | none => requested

/-- The documented default host from the bootstrap module. -/
def defaultApiHost : String := "https://api.websitetotext.com"

/-- `const apiUrl = import.meta.env.VITE_API_URL ||
'https://api.websitetotext.com'` from the bootstrap module, installed as
`axios.defaults.baseURL`. The environment value is `none` when the
build-time variable is absent; an empty string is falsy. -/
def apiUrl (env : Option String) : String :=
  match env with
  | some v => if v = ("") then defaultApiHost else v
  | none => defaultApiHost

/-- JavaScript template-literal interpolation of
`import.meta.env.VITE_API_URL`: an absent variable is the value
`undefined`, which interpolates as the literal text "undefined". -/
def interpolatedEnv (env : Option String) : String :=
  match env with
  | some v => v
  | none => "undefined"

/-- The request URL string passed to `axios.post` in `crawlWebsite`
(App.vue line 137): the template literal
`${import.meta.env.VITE_API_URL}/crawl`. -/
def crawlRequestPath (env : Option String) : String :=
  interpolatedEnv env ++ ("/crawl")

/-- The full URL the crawl request is sent to: the template-literal
string resolved by axios against the configured base URL. -/
def crawlRequestUrl (env : Option String) : String :=
  buildFullPath (some (apiUrl env)) (crawlRequestPath env)

/-! Helper lemmas shared by the export theorems. -/

/-- A join whose elements are all strings equals the plain string join. -/
theorem jsJoinRest_map_str (sep : String) :
    ∀ (rest : List String) (s : String),
      s ++ jsJoinRest (rest.map JVal.str) sep = joinSep sep (s :: rest) := by
  intro rest
  induction rest with
  | nil =>
    intro s
    simp [jsJoinRest, joinSep, String.append_empty]
  | cons s2 rest ih =>
    intro s
    rw [List.map_cons, jsJoinRest, joinSep]
    rw [← ih s2]
    show s ++ (sep ++ jsElemStr (JVal.str s2) ++ jsJoinRest (rest.map JVal.str) sep) =
      s ++ sep ++ (s2 ++ jsJoinRest (rest.map JVal.str) sep)
    rw [show jsElemStr (JVal.str s2) = s2 from rfl]
    rw [String.append_assoc, String.append_assoc]

/-- `Array.prototype.join` on a list of string values is the
specification-side join. -/
theorem jsJoin_map_str (strs : List String) (sep : String) :
    jsJoin (strs.map JVal.str) sep = joinSep sep strs := by
  cases strs with
  | nil => rfl
  | cons s rest =>
    rw [List.map_cons, jsJoin, jsJoinRest_map_str]
    rfl

/-- Header collection over an object content reduces to the four arrays. -/
theorem getHeaderVals_obj (c : List (String × JVal)) :
    getHeaderVals (JVal.obj c) headerKeys =
      Except.ok (arrOrEmpty (lookupField c ("h1")) ++
        (arrOrEmpty (lookupField c ("h2")) ++
          (arrOrEmpty (lookupField c ("h3")) ++
            (arrOrEmpty (lookupField c ("h4")) ++ [])))) := rfl

/-- A truthy page whose `content` reads as an object contributes exactly
the specification-side flattening of that object. -/
theorem pageContribution_obj (p : JVal) (c : List (String × JVal))
    (ht : truthy p = true)
    (hc : getMember p ("content") = Except.ok (JVal.obj c)) :
    pageContribution p = Except.ok (flattenContent c) := by
  unfold pageContribution
  rw [ht, hc]
  simp only [Bool.true_eq_false, if_false]
  rw [getHeaderVals_obj]
  show (if jsTypeof (JVal.obj c) != ("object") then Except.ok []
    else Except.ok ((arrOrEmpty (lookupField c ("h1")) ++
        (arrOrEmpty (lookupField c ("h2")) ++
          (arrOrEmpty (lookupField c ("h3")) ++
            (arrOrEmpty (lookupField c ("h4")) ++ [])))) ++
      arrOrEmpty (lookupField c ("text")))) = Except.ok (flattenContent c)
  rw [show (jsTypeof (JVal.obj c) != ("object")) = false from rfl]
  simp [flattenContent, List.append_assoc]

/-- Pages related to content objects contribute the specification-side
flattening of those objects, in page order. -/
theorem pagesContributions_ok (pages : List JVal)
    (contents : List (List (String × JVal)))
    (h : List.Forall₂
      (fun p c => truthy p = true ∧ getMember p ("content") = Except.ok (JVal.obj c))
      pages contents) :
    pagesContributions pages = Except.ok (flattenPages contents) := by
  induction h with
  | nil => rfl
  | cons hpc _ ih =>
    rw [pagesContributions, pageContribution_obj _ _ hpc.1 hpc.2, ih]
    rfl

/-- C1: for every stored result whose `pages` field is an array of pages
whose `content` fields are objects, the text export flattens each page by
collecting the h1, h2, h3, h4 arrays in this fixed order followed by the
text array (missing or non-array values contribute nothing), preserving
intra-array and page order, and joins the strings with two newlines; the
specification example yields exactly "A\n\nb\n\nc". -/
theorem c1_text_export_flatten :
    convertToTxt exampleResult = TxtOutcome.download ("A\n\nb\n\nc") ∧
    ∀ (result : JVal) (pages : List JVal)
      (contents : List (List (String × JVal))) (strs : List String),
      truthy result = true →
      getMember result ("pages") = Except.ok (JVal.arr pages) →
      List.Forall₂
        (fun p c => truthy p = true ∧ getMember p ("content") = Except.ok (JVal.obj c))
        pages contents →
      flattenPages contents = strs.map JVal.str →
      convertToTxt result = TxtOutcome.download (joinSep ("\n\n") strs) := by
  constructor
  · rfl
  · intro result pages contents strs hres hpages hforall hstrs
    unfold convertToTxt
    rw [hres, hpages]
    simp only [Bool.true_eq_false, if_false]
    show (if isArray (JVal.arr pages) = false then TxtOutcome.invalidStructure
      else match pagesContributions (asArr (JVal.arr pages)) with
        | Except.error _ => TxtOutcome.thrown
        | Except.ok contribs => TxtOutcome.download (jsJoin contribs ("\n\n"))) =
      TxtOutcome.download (joinSep ("\n\n") strs)
    rw [show asArr (JVal.arr pages) = pages from rfl,
      pagesContributions_ok pages contents hforall, hstrs]
    show TxtOutcome.download (jsJoin (strs.map JVal.str) ("\n\n")) =
      TxtOutcome.download (joinSep ("\n\n") strs)
    rw [jsJoin_map_str]

/-- Witness for C1: the general flattening theorem applied to the
specification example. -/
theorem c1_text_export_flatten_witness :
    convertToTxt exampleResult = TxtOutcome.download (joinSep ("\n\n") [("A"), ("b"), ("c")]) := by
  refine c1_text_export_flatten.2 exampleResult
    [JVal.obj [(("content"),
        JVal.obj [(("h1"), JVal.arr [JVal.str ("A")]),
                  (("text"), JVal.arr [JVal.str ("b"), JVal.str ("c")])])],
     JVal.obj [(("content"), JVal.obj [])]]
    [[(("h1"), JVal.arr [JVal.str ("A")]),
      (("text"), JVal.arr [JVal.str ("b"), JVal.str ("c")])], []]
    [("A"), ("b"), ("c")] rfl rfl ?_ rfl
  exact List.Forall₂.cons ⟨rfl, rfl⟩ (List.Forall₂.cons ⟨rfl, rfl⟩ List.Forall₂.nil)

/-- C5: the code is expected to skip a page whose `content` is not an
object, but because `typeof null` is "object" a page with a `null`
content passes the guard and the subsequent property access throws: at
`{pages: [{content: null}]}` the export neither downloads nor alerts, it
fails with an uncaught TypeError. -/
theorem c5_null_content_throws :
    convertToTxt nullContentResult = TxtOutcome.thrown ∧
    downloadsFile (convertToTxt nullContentResult) = false ∧
    alertsUser (convertToTxt nullContentResult) = false :=
  ⟨rfl, rfl, rfl⟩

/-- C6: an absent (falsy) stored result, or one whose `pages` field is
not an array, makes the text export abort with the user-visible
structure alert, producing no blob and no download. -/
theorem c6_structure_check (r : JVal) :
    (truthy r = false →
      convertToTxt r = TxtOutcome.invalidStructure ∧
      downloadsFile (convertToTxt r) = false ∧
      alertsUser (convertToTxt r) = true) ∧
    (∀ v, getMember r ("pages") = Except.ok v → isArray v = false →
      convertToTxt r = TxtOutcome.invalidStructure ∧
      downloadsFile (convertToTxt r) = false ∧
      alertsUser (convertToTxt r) = true) := by
  constructor
  · intro h
    have hc : convertToTxt r = TxtOutcome.invalidStructure := by
      unfold convertToTxt
      rw [h]
      rfl
    rw [hc]
    exact ⟨rfl, rfl, rfl⟩
  · intro v hv hva
    have hc : convertToTxt r = TxtOutcome.invalidStructure := by
      unfold convertToTxt
      rcases ht : truthy r with _ | _
      · rfl
      · rw [hv]
        simp only [Bool.true_eq_false, if_false]
        show (if isArray v = false then TxtOutcome.invalidStructure
          else match pagesContributions (asArr v) with
            | Except.error _ => TxtOutcome.thrown
            | Except.ok contribs => TxtOutcome.download (jsJoin contribs ("\n\n"))) =
          TxtOutcome.invalidStructure
        rw [if_pos hva]
    rw [hc]
    exact ⟨rfl, rfl, rfl⟩

/-- Witness for C6: a `null` result and a result with a non-array
`pages` field both abort with the structure alert. -/
theorem c6_structure_check_witness :
    convertToTxt JVal.null = TxtOutcome.invalidStructure ∧
    convertToTxt (JVal.obj [(("pages"), JVal.num 3)]) = TxtOutcome.invalidStructure :=
  ⟨((c6_structure_check JVal.null).1 rfl).1,
   ((c6_structure_check (JVal.obj [(("pages"), JVal.num 3)])).2 (JVal.num 3) rfl rfl).1⟩

/-- C3 counterexample: a crawl attempt rejected by input validation does
change the recorded timestamp, because the code records `lastCrawlTime`
before it checks `canCrawl`: at `lastCrawlTime = 0`, `now = 5000`,
`canCrawl = false`, no request is sent but the timestamp moves to 5000. -/
theorem c3_counterexample :
    (crawlWebsiteRun 5000 false none (AppState.mk 0 false none)).effect =
      CrawlEffect.validationAlert ∧
    (crawlWebsiteRun 5000 false none (AppState.mk 0 false none)).final.lastCrawlTime ≠
      (AppState.mk 0 false none).lastCrawlTime :=
  ⟨rfl, by decide⟩

/-- C3 (amended): the rate-limiter check runs before input validation,
and the recorded timestamp tracks the last attempt that passed the
cooldown, validated or not: an attempt outside the cooldown with
`canCrawl` false sends no request, alerts, sets the recorded timestamp to
the attempt time, and leaves `loading` and the stored result unchanged. -/
theorem c3_validation_rejection (now : Int) (net : Option JVal) (s : AppState)
    (h : CRAWL_COOLDOWN ≤ now - s.lastCrawlTime) :
    (crawlWebsiteRun now false net s).effect = CrawlEffect.validationAlert ∧
    (crawlWebsiteRun now false net s).final.lastCrawlTime = now ∧
    (crawlWebsiteRun now false net s).final.loading = s.loading ∧
    (crawlWebsiteRun now false net s).final.result = s.result := by
  have h' : ¬ (now - s.lastCrawlTime < CRAWL_COOLDOWN) := not_lt.mpr h
  unfold crawlWebsiteRun
  rw [if_neg h']
  exact ⟨rfl, rfl, rfl, rfl⟩

/-- Witness for the amended C3. -/
theorem c3_validation_rejection_witness :
    (crawlWebsiteRun 6000 false none (AppState.mk 0 true (some (JVal.obj [])))).effect =
      CrawlEffect.validationAlert ∧
    (crawlWebsiteRun 6000 false none (AppState.mk 0 true (some (JVal.obj [])))).final.result =
      some (JVal.obj []) := by
  have h := c3_validation_rejection 6000 none (AppState.mk 0 true (some (JVal.obj []))) (by decide)
  exact ⟨h.1, h.2.2.2⟩

/-- C4: on every run that sends a request, the loading flag is set while
the request is in flight and cleared on every exit path (success or
failure), and a failed network call leaves the previously stored result
unchanged. -/
theorem c4_loading_guaranteed_release (now : Int) (cc : Bool) (net : Option JVal)
    (s : AppState) :
    (∀ b : Bool, (crawlWebsiteRun now cc net s).effect = CrawlEffect.requestSent b →
      (crawlWebsiteRun now cc net s).inflight.loading = true ∧
      (crawlWebsiteRun now cc net s).final.loading = false) ∧
    ((crawlWebsiteRun now cc net s).effect = CrawlEffect.requestSent false →
      (crawlWebsiteRun now cc net s).final.result = s.result) := by
  unfold crawlWebsiteRun
  by_cases h1 : now - s.lastCrawlTime < CRAWL_COOLDOWN
  · rw [if_pos h1]
    constructor
    · intro b hb
      exact absurd hb (by simp)
    · intro hb
      exact absurd hb (by simp)
  · rw [if_neg h1]
    cases cc
    · constructor
      · intro b hb
        exact absurd hb (by simp)
      · intro hb
        exact absurd hb (by simp)
    · cases net
      · exact ⟨fun b hb => ⟨rfl, rfl⟩, fun hb => rfl⟩
      · constructor
        · intro b hb
          exact ⟨rfl, rfl⟩
        · intro hb
          exact absurd hb (by simp)

/-- Witness for C4: a failed request at a cleared cooldown clears the
loading flag and keeps the previous result. -/
theorem c4_loading_guaranteed_release_witness :
    (crawlWebsiteRun 5000 true none (AppState.mk 0 false (some (JVal.obj [])))).final.loading =
      false ∧
    (crawlWebsiteRun 5000 true none (AppState.mk 0 false (some (JVal.obj [])))).final.result =
      some (JVal.obj []) := by
  have h := c4_loading_guaranteed_release 5000 true none (AppState.mk 0 false (some (JVal.obj [])))
  exact ⟨(h.1 false rfl).2, h.2 rfl⟩

/-- C7: an attempt strictly inside the 5000 ms cooldown is rejected
before any request is sent, the alert reports the remaining wait rounded
up to a whole number of seconds in (0, 5], and neither the recorded
timestamp nor any other state changes. -/
theorem c7_cooldown_rejection (now : Int) (cc : Bool) (net : Option JVal) (s : AppState)
    (h0 : 0 ≤ now - s.lastCrawlTime) (h1 : now - s.lastCrawlTime < CRAWL_COOLDOWN) :
    ∃ w : Int,
      (crawlWebsiteRun now cc net s).effect = CrawlEffect.cooldownAlert w ∧
      0 < w ∧ w ≤ 5 ∧
      (crawlWebsiteRun now cc net s).final = s ∧
      (crawlWebsiteRun now cc net s).inflight = s := by
  have hq0 : (0 : ℚ) ≤ ((now - s.lastCrawlTime : Int) : ℚ) := by exact_mod_cast h0
  have h1n : now - s.lastCrawlTime < 5000 := h1
  have hq1 : ((now - s.lastCrawlTime : Int) : ℚ) < 5000 := by exact_mod_cast h1n
  refine ⟨Int.ceil (((5000 - (now - s.lastCrawlTime) : Int) : ℚ) / 1000), ?_, ?_, ?_, ?_, ?_⟩
  · unfold crawlWebsiteRun
    rw [if_pos h1]
    rfl
  · rw [Int.lt_ceil]
    push_cast
    push_cast at hq1
    apply div_pos
    · linarith
    · norm_num
  · rw [Int.ceil_le]
    push_cast
    push_cast at hq0
    rw [div_le_iff₀ (by norm_num : (0:ℚ) < 1000)]
    linarith
  · unfold crawlWebsiteRun
    rw [if_pos h1]
  · unfold crawlWebsiteRun
    rw [if_pos h1]

/-- Witness for C7: an attempt 1000 ms after the recorded timestamp is
rejected with a cooldown alert and the state is untouched. -/
theorem c7_cooldown_rejection_witness :
    isCooldownAlert (crawlWebsiteRun 1000 true none (AppState.mk 0 false none)).effect = true ∧
    (crawlWebsiteRun 1000 true none (AppState.mk 0 false none)).final =
      AppState.mk 0 false none := by
  obtain ⟨w, hw, _, _, hfin, _⟩ :=
    c7_cooldown_rejection 1000 true none (AppState.mk 0 false none) (by decide) (by decide)
  constructor
  · rw [hw]
    rfl
  · exact hfin

/-- C8 counterexample: not every control that can trigger a crawl is
disabled during flight: with `loading = true` the Enter-key handler still
invokes `crawlWebsite`, and once the cooldown has elapsed the invocation
sends a second request while the first is in flight. -/
theorem c8_counterexample :
    handleKeyPress ("Enter") = true ∧
    (AppState.mk 0 true none).loading = true ∧
    (crawlWebsiteRun 5000 true (some (JVal.obj [])) (AppState.mk 0 true none)).effect =
      CrawlEffect.requestSent true :=
  ⟨rfl, rfl, rfl⟩

/-- C8 (amended): the crawl button is disabled while a request is in
flight, but the Enter-key handler is not: during flight a second attempt
is stopped only by the cooldown, and once 5000 ms have elapsed an Enter
keypress with `canCrawl` true starts a second concurrent request. -/
theorem c8_in_flight_second_request (cc : Bool) (key : String) (now : Int)
    (net : Option JVal) (s : AppState) :
    (crawlButtonEnabled true cc = false) ∧
    (handleKeyPress key = true ↔ key = ("Enter")) ∧
    (s.loading = true → now - s.lastCrawlTime < CRAWL_COOLDOWN →
      (crawlWebsiteRun now cc net s).inflight.loading = true ∧
      isCooldownAlert (crawlWebsiteRun now cc net s).effect = true) ∧
    (s.loading = true → CRAWL_COOLDOWN ≤ now - s.lastCrawlTime → cc = true →
      (crawlWebsiteRun now cc net s).effect = CrawlEffect.requestSent net.isSome) := by
  refine ⟨rfl, ?_, ?_, ?_⟩
  · simp [handleKeyPress]
  · intro hl h1
    unfold crawlWebsiteRun
    rw [if_pos h1]
    exact ⟨hl, rfl⟩
  · intro hl h2 hcc
    subst hcc
    have h' : ¬ (now - s.lastCrawlTime < CRAWL_COOLDOWN) := not_lt.mpr h2
    unfold crawlWebsiteRun
    rw [if_neg h']
    cases net
    · rfl
    · rfl

/-- Witness for the amended C8: with the cooldown elapsed and a request
already in flight, an Enter-triggered invocation sends another request. -/
theorem c8_in_flight_second_request_witness :
    crawlButtonEnabled true true = false ∧
    (crawlWebsiteRun 7000 true none (AppState.mk 0 true none)).effect =
      CrawlEffect.requestSent false := by
  have h := c8_in_flight_second_request true ("Enter") 7000 none (AppState.mk 0 true none)
  exact ⟨h.1, h.2.2.2 rfl (by decide) rfl⟩

/-- Every reachable value of the `maxPages` ref is an integer bounded by
the page ceiling. -/
theorem reachableMaxPages_bound (m : ℚ) (h : ReachableMaxPages m) :
    ∃ k : ℤ, m = (k : ℚ) ∧ k ≤ 100 := by
  induction h with
  | init => exact ⟨10, by norm_num, by norm_num⟩
  | step m parsed h ih =>
    cases parsed with
    | none => simpa [updateMaxPages] using ih
    | some p =>
      refine ⟨min p 100, ?_, min_le_right p 100⟩
      unfold updateMaxPages MAX_CRAWL_PAGES
      push_cast
      rfl

/-- Unfolding of the page-count validity check. -/
theorem isValidMaxPages_iff (m : ℚ) :
    isValidMaxPages m = true ↔ (m.den = 1 ∧ 0 < m) := by
  unfold isValidMaxPages
  simp

/-- C2: in every reachable state, `canCrawl` is true exactly when the
URL check passes and the page count is an integer in [1, 100]; a
non-integer or non-positive page count always fails the gate; every
integer in [1, 100] passes the page-count check; and a parsed display
value above 100 is clamped to 100 on update. -/
theorem c2_page_count_gate (u : Bool) (m : ℚ) (hm : ReachableMaxPages m) :
    (canCrawl u m = true ↔ (u = true ∧ ∃ k : ℤ, m = (k : ℚ) ∧ 1 ≤ k ∧ k ≤ 100)) ∧
    (∀ m' : ℚ, (m'.den ≠ 1 ∨ m' ≤ 0) → canCrawl u m' = false) ∧
    (∀ k : ℤ, 1 ≤ k → k ≤ 100 → isValidMaxPages ((k : ℚ)) = true) ∧
    (∀ (p : ℤ) (m' : ℚ), 100 < p → updateMaxPages (some p) m' = MAX_CRAWL_PAGES) := by
  obtain ⟨k0, hk0, hk0le⟩ := reachableMaxPages_bound m hm
  refine ⟨⟨?_, ?_⟩, ?_, ?_, ?_⟩
  · intro h
    unfold canCrawl at h
    rw [Bool.and_eq_true] at h
    obtain ⟨hu, hv⟩ := h
    rw [isValidMaxPages_iff] at hv
    have hq : (0 : ℚ) < (k0 : ℚ) := hk0 ▸ hv.2
    have hz : 0 < k0 := by exact_mod_cast hq
    exact ⟨hu, k0, hk0, by omega, hk0le⟩
  · rintro ⟨hu, k, hk, hk1, hk100⟩
    unfold canCrawl
    rw [hu, hk, Bool.true_and, isValidMaxPages_iff]
    have hz : (0 : ℤ) < k := by omega
    exact ⟨Rat.den_intCast k, by exact_mod_cast hz⟩
  · intro m' hm'
    unfold canCrawl
    cases hv : isValidMaxPages m' with
    | false => rw [Bool.and_false]
    | true =>
      exfalso
      have h2 := (isValidMaxPages_iff m').mp hv
      rcases hm' with h | h
      · exact h h2.1
      · exact absurd h2.2 (not_lt.mpr h)
  · intro k h1 h100
    rw [isValidMaxPages_iff]
    have hz : (0 : ℤ) < k := by omega
    exact ⟨Rat.den_intCast k, by exact_mod_cast hz⟩
  · intro p m' hp
    unfold updateMaxPages
    apply min_eq_right
    unfold MAX_CRAWL_PAGES
    have : (100 : ℤ) ≤ p := by omega
    exact_mod_cast this

/-- Witness for C2: in the initial state (`maxPages = 10`) with a valid
URL the gate is open, and a non-positive count closes it. -/
theorem c2_page_count_gate_witness :
    canCrawl true 10 = true ∧ canCrawl true (-3) = false := by
  have h := c2_page_count_gate true 10 ReachableMaxPages.init
  constructor
  · exact h.1.mpr ⟨rfl, 10, by norm_num, by norm_num, by norm_num⟩
  · exact h.2.1 (-3) (Or.inr (by norm_num))

/-- Dropping a character class from the front of a concatenation either
consumes the whole first part or stops inside it. -/
theorem dropWhile_append_or (q : Char → Bool) (l₁ l₂ : List Char) :
    List.dropWhile q (l₁ ++ l₂) = List.dropWhile q l₂ ∨
    List.dropWhile q (l₁ ++ l₂) = List.dropWhile q l₁ ++ l₂ := by
  induction l₁ with
  | nil => exact Or.inl rfl
  | cons a l ih =>
    by_cases hqa : q a = true
    · rw [List.cons_append, List.dropWhile_cons, if_pos hqa, List.dropWhile_cons, if_pos hqa]
      exact ih
    · right
      rw [List.cons_append, List.dropWhile_cons, if_neg hqa, List.dropWhile_cons, if_neg hqa]
      rfl

/-- Trimming preserves a non-empty leading literal that neither starts
nor ends in whitespace. -/
theorem jsTrim_append_pre (p t : List Char) (hne : p ≠ [])
    (hhd : jsWhitespace p.headI = false)
    (hrev : List.dropWhile jsWhitespace p.reverse = p.reverse) :
    ∃ r, jsTrim (p ++ t) = p ++ r := by
  obtain ⟨a, as, rfl⟩ : ∃ a as, p = a :: as := by
    cases p with
    | nil => exact absurd rfl hne
    | cons a as => exact ⟨a, as, rfl⟩
  have hhd' : jsWhitespace a = false := hhd
  have hdrop : List.dropWhile jsWhitespace ((a :: as) ++ t) = (a :: as) ++ t := by
    rw [List.cons_append, List.dropWhile_cons]
    simp [hhd']
  unfold jsTrim rtrimWhile
  rw [hdrop, List.reverse_append]
  rcases dropWhile_append_or jsWhitespace t.reverse ((a :: as).reverse) with h | h
  · rw [h, hrev]
    exact ⟨[], by rw [List.reverse_reverse, List.append_nil]⟩
  · rw [h]
    refine ⟨(List.dropWhile jsWhitespace t.reverse).reverse, ?_⟩
    rw [List.reverse_append, List.reverse_reverse]

/-- Lowercasing distributes over concatenation. -/
theorem jsLower_append (l₁ l₂ : List Char) :
    jsLower (l₁ ++ l₂) = jsLower l₁ ++ jsLower l₂ :=
  List.map_append _ _ _

/-- The scheme literals are already lowercase. -/
theorem jsLower_http : jsLower httpChars = httpChars := by decide

/-- The secure scheme literal is already lowercase. -/
theorem jsLower_https : jsLower httpsChars = httpsChars := by decide

/-- `startsWith` holds on any extension of the tested literal. -/
theorem startsWithL_append (p x : List Char) : startsWithL (p ++ x) p = true := by
  unfold startsWithL
  exact List.isPrefixOf_iff_prefix.mpr ⟨x, rfl⟩

/-- C9: URL normalization trims, lowercases, and prepends "https://"
exactly when the trimmed lowercased string starts with neither "http://"
nor "https://"; an input already prefixed with "http://" or "https://"
keeps its scheme with the rest lowercased, and an input without a scheme
normalizes to a string starting with "https://". -/
theorem c9_url_normalization (u : List Char) :
    (startsWithL (jsLower (jsTrim u)) httpChars = false →
      startsWithL (jsLower (jsTrim u)) httpsChars = false →
      normalizedUrl u = httpsChars ++ jsLower (jsTrim u) ∧
      httpsChars <+: normalizedUrl u) ∧
    ((startsWithL (jsLower (jsTrim u)) httpChars = true ∨
      startsWithL (jsLower (jsTrim u)) httpsChars = true) →
      normalizedUrl u = jsLower (jsTrim u)) ∧
    (httpChars <+: u →
      normalizedUrl u = jsLower (jsTrim u) ∧ httpChars <+: normalizedUrl u) ∧
    (httpsChars <+: u →
      normalizedUrl u = jsLower (jsTrim u) ∧ httpsChars <+: normalizedUrl u) := by
  refine ⟨?_, ?_, ?_, ?_⟩
  · intro h1 h2
    have he : normalizedUrl u = httpsChars ++ jsLower (jsTrim u) := by
      unfold normalizedUrl
      rw [h1, h2]
      rfl
    exact ⟨he, he ▸ ⟨jsLower (jsTrim u), rfl⟩⟩
  · intro h
    unfold normalizedUrl
    rcases h with h | h
    · rw [h]
      rfl
    · rw [h]
      simp
  · intro h
    obtain ⟨t, rfl⟩ := h
    obtain ⟨r, htrim⟩ :=
      jsTrim_append_pre httpChars t (by decide) (by decide) (by decide)
    have hlow : jsLower (jsTrim (httpChars ++ t)) = httpChars ++ jsLower r := by
      rw [htrim, jsLower_append, jsLower_http]
    have hsw : startsWithL (jsLower (jsTrim (httpChars ++ t))) httpChars = true := by
      rw [hlow]
      exact startsWithL_append _ _
    have heq : normalizedUrl (httpChars ++ t) = jsLower (jsTrim (httpChars ++ t)) := by
      unfold normalizedUrl
      rw [hsw]
      rfl
    refine ⟨heq, ?_⟩
    rw [heq, hlow]
    exact ⟨jsLower r, rfl⟩
  · intro h
    obtain ⟨t, rfl⟩ := h
    obtain ⟨r, htrim⟩ :=
      jsTrim_append_pre httpsChars t (by decide) (by decide) (by decide)
    have hlow : jsLower (jsTrim (httpsChars ++ t)) = httpsChars ++ jsLower r := by
      rw [htrim, jsLower_append, jsLower_https]
    have hsw : startsWithL (jsLower (jsTrim (httpsChars ++ t))) httpsChars = true := by
      rw [hlow]
      exact startsWithL_append _ _
    have heq : normalizedUrl (httpsChars ++ t) = jsLower (jsTrim (httpsChars ++ t)) := by
      unfold normalizedUrl
      rw [hsw]
      simp
    refine ⟨heq, ?_⟩
    rw [heq, hlow]
    exact ⟨jsLower r, rfl⟩

/-- Witness for C9: a lowercase-scheme input keeps its scheme, and an
unschemed input gains "https://". -/
theorem c9_url_normalization_witness :
    normalizedUrl (("http://Example.com").toList) =
      jsLower (jsTrim (("http://Example.com").toList)) ∧
    httpChars <+: normalizedUrl (("http://Example.com").toList) ∧
    normalizedUrl (("  example.com").toList) =
      httpsChars ++ jsLower (jsTrim (("  example.com").toList)) := by
  have h1 := (c9_url_normalization (("http://Example.com").toList)).2.2.1
    (List.isPrefixOf_iff_prefix.mp (by decide))
  have h2 := (c9_url_normalization (("  example.com").toList)).1 (by decide) (by decide)
  exact ⟨h1.1, h1.2, h2.1⟩

/-- C10: with the build-time API variable absent, the template literal
interpolates the text "undefined", so axios resolves the request against
the default base URL to the path "/undefined/crawl" on the documented
default host, not to "/crawl". -/
theorem c10_default_api_url :
    apiUrl none = defaultApiHost ∧
    crawlRequestUrl none = ("https://api.websitetotext.com/undefined/crawl") ∧
    crawlRequestUrl none ≠ defaultApiHost ++ ("/crawl") :=
  ⟨rfl, by decide, by decide⟩
